import Mathlib

/-!
Verification of the django_hana SAP HANA backend (file django_hana/base.py).

Shallow embedding of the cursor wrapper, the debug cursor wrapper and the
connection manager of django_hana/base.py.  SQL text is modelled as
List Char; Python values appearing in driver results and error arguments
are modelled by PyVal; the stateful parts (dirty flag, transaction stack,
connection handle, query log) are modelled by explicit record passing.
The pyhdb driver itself is external to the repository: its behaviour
enters each wrapped operation as an explicit outcome argument, and a
driver error carries an error code and further arguments, following the
driver interface description (every driver error carries an error code
and message).
-/

namespace DjangoHana

/-- Python value as it appears in driver results and error arguments. -/
inductive PyVal where
  | pynone
  | int (n : Int)
  | str (s : List Char)
  deriving DecidableEq, Repr

/-- Embedding of CursorWrapper._replace_params (base.py line 118):
Python sql.replace with the two-character pattern, i.e. left-to-right
non-overlapping replacement of the marker percent-s by a question mark. -/
def replace_params : List Char → List Char
  | [] => []
  | [c] => [c]
  | c1 :: c2 :: rest =>
    if c1 = '%' ∧ c2 = 's' then '?' :: replace_params rest
    else c1 :: replace_params (c2 :: rest)

/-- Spec-side notion: whether the two-character marker percent-s occurs
somewhere in the string.  Used to state the translation claim. -/
def containsMarker : List Char → Bool
  | [] => false
  | [_] => false
  | c1 :: c2 :: rest =>
    if c1 = '%' ∧ c2 = 's' then true
    else containsMarker (c2 :: rest)

/-- Error arguments of a pyhdb driver error.  The driver is external to
the repository; per the driver interface description every error carries
an error code and message, so the argument tuple is modelled as nonempty:
a first argument (the one the wrapper reads as the error code) plus the
remaining arguments. -/
structure DriverError where
  isIntegrity : Bool
  arg0 : PyVal
  restArgs : List PyVal
  deriving DecidableEq, Repr

/-- The full argument tuple of a driver error (Python e.args). -/
def DriverError.args (e : DriverError) : List PyVal :=
  e.arg0 :: e.restArgs

/-- Embedding of CursorWrapper.codes_for_integrityerror (base.py line 56). -/
def codes_for_integrityerror : List Int := [301]

/-- The membership test on base.py lines 98 and 110: the first error
argument is compared against the tuple of known integrity-error codes. -/
def code_matches (v : PyVal) : Bool :=
  match v with
  | .int n => codes_for_integrityerror.contains n
  | _ => false

/-- Errors the wrapper raises toward Django, each carrying the argument
tuple of the original driver error. -/
inductive WrapperError where
  | integrityError (args : List PyVal)
  | databaseError (args : List PyVal)
  deriving DecidableEq, Repr

/-- The exception handlers shared by execute and executemany
(base.py lines 93-100 and 105-112): a driver IntegrityError is re-raised
as utils.IntegrityError with the same args; any other driver error is
re-raised as utils.IntegrityError when its first argument is a known
integrity-error code, and as utils.DatabaseError otherwise. -/
def classify_driver_error (e : DriverError) : WrapperError :=
  if e.isIntegrity then .integrityError e.args
  else if code_matches e.arg0 then .integrityError e.args
  else .databaseError e.args

deriving instance DecidableEq for Except

/-- Observable outcome of one wrapped statement execution: the SQL text
handed to the driver cursor, and the value returned to (or the error
raised toward) the caller. -/
structure ExecTrace where
  sentSql : List Char
  result : Except WrapperError PyVal
  deriving DecidableEq, Repr

/-- Embedding of CursorWrapper.execute (base.py lines 87-100).  The
statement handed to the driver is the translated text; the behaviour of
the external driver call is the driverOutcome argument.  The Python body
has no return statement, so on success the caller receives None. -/
def cursorExecute (sql : List Char) (driverOutcome : Except DriverError PyVal) : ExecTrace :=
  { sentSql := replace_params sql
  , result :=
      match driverOutcome with
      | .ok _ => .ok .pynone
      | .error e => .error (classify_driver_error e) }

/-- Embedding of CursorWrapper.executemany (base.py lines 102-112): same
translation and same error classification as execute, and likewise no
return statement. -/
def cursorExecutemany (sql : List Char) (driverOutcome : Except DriverError PyVal) : ExecTrace :=
  { sentSql := replace_params sql
  , result :=
      match driverOutcome with
      | .ok _ => .ok .pynone
      | .error e => .error (classify_driver_error e) }

/-- Connection-level flags relevant to dirty-flag bookkeeping. -/
structure WrapperDb where
  autocommit : Bool
  dirty : Bool
  deriving DecidableEq, Repr

/-- Embedding of DatabaseWrapper.set_dirty (base.py lines 277-278): the
body is pass, so the connection state is unchanged. -/
def databaseWrapper_set_dirty (db : WrapperDb) : WrapperDb := db

/-- Embedding of CursorWrapper.set_dirty (base.py lines 63-65): when not
in autocommit mode it calls DatabaseWrapper.set_dirty. -/
def cursor_set_dirty (db : WrapperDb) : WrapperDb :=
  if db.autocommit then db else databaseWrapper_set_dirty db

/-- CursorWrapper.execute together with its effect on the owning
connection: the body (base.py lines 91-100) never references self.db, so
the connection state component is returned unchanged. -/
def cursorExecuteSt (db : WrapperDb) (sql : List Char)
    (driverOutcome : Except DriverError PyVal) : WrapperDb × ExecTrace :=
  (db, cursorExecute sql driverOutcome)

/-- A bound parameter as seen by the debug wrapper: a driver Blob, plain
bytes (the result of Blob.encode), or any other value. -/
inductive PyParam where
  | blob (data : List Nat)
  | bytes (data : List Nat)
  | val (v : PyVal)
  deriving DecidableEq, Repr

/-- Embedding of the local sanitize_blob of CursorDebugWrapper.execute
(base.py lines 131-134): a Blob is encoded to bytes, anything else is
returned unchanged. -/
def sanitize_blob : PyParam → PyParam
  | .blob d => .bytes d
  | p => p

/-- One entry of the connection query log (self.db.queries).  The source
stores the duration formatted with three decimals; the model records the
numeric duration itself. -/
structure LogEntry where
  sql : List Char
  time : Int
  deriving DecidableEq, Repr

/-- Observable outcome of one debug-wrapped execution. -/
structure DebugExecResult where
  db : WrapperDb
  queries : List LogEntry
  sentSql : List Char
  result : Except WrapperError PyVal

/-- Embedding of CursorDebugWrapper.execute (base.py lines 122-148).
The leq argument stands for self.db.ops.last_executed_query, which lives
in django_hana/operations.py, outside the provided sources; it is
modelled from the spec as an arbitrary collaborator that renders the
final executed SQL text from the statement and the sanitized parameters.
Timestamps start and stop are the two wall-clock readings.  The finally
block runs whether or not the delegated call failed, so the log append
is unconditional. -/
def debugExecute (leq : List Char → List PyParam → List Char)
    (db : WrapperDb) (queries : List LogEntry)
    (sql : List Char) (params : List PyParam)
    (start stop : Int) (driverOutcome : Except DriverError PyVal) : DebugExecResult :=
  let db1 := cursor_set_dirty db
  let tr := cursorExecute sql driverOutcome
  let duration := stop - start
  let sparams := params.map sanitize_blob
  let rendered := leq sql sparams
  { db := db1
  , queries := queries ++ [{ sql := rendered, time := duration }]
  , sentSql := tr.sentSql
  , result := tr.result }

/-- The parameter-set sequence handed to executemany: either a sized
list or tuple, on which Python len succeeds, or an iterator, on which
len raises TypeError. -/
inductive ParamSets where
  | sized (l : List (List PyParam))
  | unsized
  deriving Repr

/-- The times value of CursorDebugWrapper.executemany
(base.py lines 158-161): the length of the parameter list, or the
literal question-mark character when the sequence has no length. -/
def timesChars : ParamSets → List Char
  | .sized l => (Nat.repr l.length).data
  | .unsized => ['?']

/-- Embedding of CursorDebugWrapper.executemany (base.py lines 150-170).
The log entry renders the count followed by the times separator and the
original, untranslated statement text; the append sits in the finally
block, so it is unconditional. -/
def debugExecutemany (db : WrapperDb) (queries : List LogEntry)
    (sql : List Char) (pl : ParamSets)
    (start stop : Int) (driverOutcome : Except DriverError PyVal) : DebugExecResult :=
  let db1 := cursor_set_dirty db
  let tr := cursorExecutemany sql driverOutcome
  let duration := stop - start
  { db := db1
  , queries := queries ++ [{ sql := timesChars pl ++ " times: ".data ++ sql, time := duration }]
  , sentSql := tr.sentSql
  , result := tr.result }

/-- The Django settings entries read by get_connection_params.  Django
guarantees the keys exist and defaults them to the empty string, which
is falsy in Python, so an absent parameter is the empty string. -/
structure SettingsDict where
  NAME : String
  USER : String
  PASSWORD : String
  HOST : String
  PORT : String
  deriving DecidableEq, Repr

/-- The conn_params dictionary built by get_connection_params: each key
is present only when the corresponding setting is truthy. -/
structure ConnParams where
  user : Option String
  password : Option String
  host : Option String
  port : Option String
  deriving DecidableEq, Repr

/-- Python exceptions that can be raised on the connection path before
any network activity. -/
inductive PyErr where
  | improperlyConfigured
  | keyError (k : String)
  deriving DecidableEq, Repr

/-- Embedding of DatabaseWrapper.get_connection_params
(base.py lines 236-252): a falsy NAME raises ImproperlyConfigured, the
four credentials are copied into conn_params only when truthy. -/
def get_connection_params (s : SettingsDict) : Except PyErr ConnParams :=
  if s.NAME = "" then .error .improperlyConfigured
  else .ok
    { user := if s.USER = "" then none else some s.USER
    , password := if s.PASSWORD = "" then none else some s.PASSWORD
    , host := if s.HOST = "" then none else some s.HOST
    , port := if s.PORT = "" then none else some s.PORT }

/-- Outcome of get_new_connection up to the external driver call: either
an exception raised before any network activity, or the keyword
arguments with which Database.connect is invoked. -/
inductive ConnectOutcome where
  | raisedBeforeNetwork (e : PyErr)
  | networkCall (host port user password : String)
  deriving DecidableEq, Repr

/-- Embedding of DatabaseWrapper.get_new_connection (base.py lines
254-266) up to the Database.connect call: the keyword arguments are
evaluated left to right (host, port, user, password), and the first
lookup of a key missing from conn_params raises KeyError before the
network call happens.  The int conversion of the port and everything
after the connect call are beyond the modelled boundary. -/
def get_new_connection (cp : ConnParams) : ConnectOutcome :=
  match cp.host with
  | none => .raisedBeforeNetwork (.keyError "host")
  | some h =>
    match cp.port with
    | none => .raisedBeforeNetwork (.keyError "port")
    | some p =>
      match cp.user with
      | none => .raisedBeforeNetwork (.keyError "user")
      | some u =>
        match cp.password with
        | none => .raisedBeforeNetwork (.keyError "password")
        | some pw => .networkCall h p u pw

/-- The connection pipeline the spec calls connect: parameter validation
followed by get_new_connection. -/
def connect_pipeline (s : SettingsDict) : ConnectOutcome :=
  match get_connection_params s with
  | .error e => .raisedBeforeNetwork e
  | .ok cp => get_new_connection cp

/-- Transaction-relevant state of the database wrapper: the length of
the transaction_state stack, the dirty flag, the connection autocommit
flag, and a count of connection rollback calls. -/
structure TxState where
  transaction_state : Nat
  dirty : Bool
  autocommit : Bool
  rollbacks : Nat
  deriving DecidableEq, Repr

/-- The two TransactionManagementError messages of
leave_transaction_management. -/
inductive TxError where
  | notManaged
  | pendingWrites
  deriving DecidableEq, Repr

/-- Embedding of DatabaseWrapper.leave_transaction_management
(base.py lines 294-311).  The try body pops the transaction-state stack
or raises, then on a dirty state performs a rollback and raises; the
finally block re-enables autocommit on every path; the dirty flag is
cleared only on the non-raising path. -/
def leave_transaction_management (st : TxState) : TxState × Option TxError :=
  if st.transaction_state = 0 then
    ({ st with autocommit := true }, some .notManaged)
  else
    let st1 := { st with transaction_state := st.transaction_state - 1 }
    if st1.dirty then
      let st2 := { st1 with rollbacks := st1.rollbacks + 1 }
      ({ st2 with autocommit := true }, some .pendingWrites)
    else
      ({ st1 with autocommit := true, dirty := false }, none)

/-- The physical pyhdb connection handle: only its closed flag is
observed by the wrapper. -/
structure PhysConn where
  closed : Bool
  deriving DecidableEq, Repr

/-- The DatabaseWrapper fields relevant to close and is_usable: the
optional connection object, plus a count of physical close calls. -/
structure DbHandle where
  connection : Option PhysConn
  physCloseCalls : Nat
  deriving DecidableEq, Repr

/-- Embedding of DatabaseWrapper.close (base.py lines 229-234): when the
connection attribute is None the method returns at once; otherwise the
physical connection is closed and the attribute is set to None. -/
def db_close (w : DbHandle) : DbHandle :=
  match w.connection with
  | none => w
  | some _ => { connection := none, physCloseCalls := w.physCloseCalls + 1 }

/-- Result of is_usable: a boolean, or the AttributeError that Python
raises when the closed attribute is read off None. -/
inductive UsableResult where
  | ok (b : Bool)
  | attributeError
  deriving DecidableEq, Repr

/-- Embedding of DatabaseWrapper.is_usable (base.py lines 325-326): it
reads self.connection.closed, which on a None connection raises
AttributeError. -/
def is_usable (w : DbHandle) : UsableResult :=
  match w.connection with
  | none => .attributeError
  | some c => .ok (!c.closed)

/-- A Python iterator over rows, modelled by its remaining elements. -/
structure PyIterator (α : Type) where
  remaining : List α
  deriving DecidableEq, Repr

/-- One step of the iterator protocol: StopIteration on an exhausted
iterator, otherwise the next row and the advanced iterator. -/
def pyNext {α : Type} : PyIterator α → Option α × PyIterator α
  | ⟨[]⟩ => (none, ⟨[]⟩)
  | ⟨a :: r⟩ => (some a, ⟨r⟩)

/-- Repeatedly call pyNext, collecting the yielded rows, with explicit
fuel bounding the number of protocol steps. -/
def drainFuel {α : Type} : Nat → PyIterator α → List α × PyIterator α
  | 0, it => ([], it)
  | n + 1, it =>
    match pyNext it with
    | (none, it2) => ([], it2)
    | (some a, it2) =>
      let p := drainFuel n it2
      (a :: p.1, p.2)

/-- A driver cursor as seen by the iteration wrapper: whether the Python
iter call succeeds on it, and the rows it produces in driver order. -/
structure DriverCursor (α : Type) where
  iterable : Bool
  rows : List α
  deriving Repr

/-- The driver fetchall call: the produced rows, materialized. -/
def fetchall {α : Type} (c : DriverCursor α) : List α := c.rows

/-- Embedding of CursorWrapper.iteration (base.py lines 74-78): iter on
the driver cursor when it supports iteration, otherwise the TypeError
branch builds an iterator over cursor.fetchall(). -/
def cursorIter {α : Type} (c : DriverCursor α) : PyIterator α :=
  if c.iterable then ⟨c.rows⟩
  else ⟨fetchall c⟩

/- ================= Theorems ================= -/

/-- Helper for C1: a string without the marker is left unchanged by the
replacement. -/
theorem replace_params_no_marker (l : List Char) (h : containsMarker l = false) :
    replace_params l = l := by
  induction l with
  | nil => rfl
  | cons c t ih =>
    cases t with
    | nil => rfl
    | cons d t2 =>
      by_cases hm : c = '%' ∧ d = 's'
      · rw [containsMarker, if_pos hm] at h
        exact absurd h (by decide)
      · rw [containsMarker, if_neg hm] at h
        rw [replace_params, if_neg hm, ih h]

/-- Helper for C1: the replacement rewrites the text up to the leftmost
marker occurrence verbatim, replaces that occurrence by the question
mark, and continues on the remainder. -/
theorem replace_params_split (a b : List Char) (ha : containsMarker a = false) :
    replace_params (a ++ '%' :: 's' :: b) = a ++ '?' :: replace_params b := by
  induction a with
  | nil =>
    rw [List.nil_append, List.nil_append, replace_params,
      if_pos (by exact ⟨rfl, rfl⟩)]
  | cons c t ih =>
    cases t with
    | nil =>
      rw [List.cons_append, List.nil_append, replace_params,
        if_neg (fun hp => absurd hp.2 (by decide)), replace_params,
        if_pos (by exact ⟨rfl, rfl⟩)]
      rfl
    | cons d t2 =>
      by_cases hm : c = '%' ∧ d = 's'
      · rw [containsMarker, if_pos hm] at ha
        exact absurd ha (by decide)
      · rw [containsMarker, if_neg hm] at ha
        rw [List.cons_append, List.cons_append, replace_params, if_neg hm]
        rw [← List.cons_append]
        rw [ih ha]
        rfl

/-- Helper for C1: the head of the translated text is the original head
character or the question mark. -/
theorem replace_params_head_cases (c : Char) (r : List Char) :
    (replace_params (c :: r)).head? = some c ∨
      (replace_params (c :: r)).head? = some '?' := by
  cases r with
  | nil => exact Or.inl rfl
  | cons d r2 =>
    by_cases hm : c = '%' ∧ d = 's'
    · right
      rw [replace_params, if_pos hm]
      rfl
    · left
      rw [replace_params, if_neg hm]
      rfl

/-- Helper for C1: prepending a character that cannot start a marker
occurrence preserves marker-freeness. -/
theorem containsMarker_cons (c : Char) (X : List Char)
    (hc : c ≠ '%' ∨ X.head? ≠ some 's') (h : containsMarker X = false) :
    containsMarker (c :: X) = false := by
  cases X with
  | nil => rfl
  | cons x X2 =>
    rw [containsMarker, if_neg]
    · exact h
    · intro hp
      rcases hc with hc | hc
      · exact hc hp.1
      · exact hc (by rw [hp.2]; rfl)

/-- Helper for C1: the translated text contains no marker occurrence,
so every occurrence has been replaced. -/
theorem replace_params_no_marker_left :
    ∀ l : List Char, containsMarker (replace_params l) = false
  | [] => rfl
  | [_] => rfl
  | c1 :: c2 :: rest => by
    by_cases hm : c1 = '%' ∧ c2 = 's'
    · rw [replace_params, if_pos hm]
      exact containsMarker_cons _ _ (Or.inl (by decide))
        (replace_params_no_marker_left rest)
    · rw [replace_params, if_neg hm]
      by_cases hc : c1 = '%'
      · have hs : c2 ≠ 's' := fun h2 => hm ⟨hc, h2⟩
        refine containsMarker_cons _ _ (Or.inr ?_)
          (replace_params_no_marker_left (c2 :: rest))
        rcases replace_params_head_cases c2 rest with hh | hh
        · rw [hh]
          intro he
          exact hs (by injection he)
        · rw [hh]
          decide
      · exact containsMarker_cons _ _ (Or.inl hc)
          (replace_params_no_marker_left (c2 :: rest))

/-- C1: execute and executemany hand the driver the translated SQL text,
in which every occurrence of the two-character marker percent-s has been
replaced by the question mark and no other character is altered or
reordered (the text up to the leftmost occurrence is kept verbatim and
the translation continues on the remainder, and no occurrence survives
in the output); a string without the marker is passed unchanged. -/
theorem c1_translation (sql : List Char) (d : Except DriverError PyVal) :
    (cursorExecute sql d).sentSql = replace_params sql
  ∧ (cursorExecutemany sql d).sentSql = replace_params sql
  ∧ (containsMarker sql = false → replace_params sql = sql)
  ∧ containsMarker (replace_params sql) = false
  ∧ (∀ a b, containsMarker a = false → sql = a ++ '%' :: 's' :: b →
      replace_params sql = a ++ '?' :: replace_params b) := by
  refine ⟨rfl, rfl, replace_params_no_marker sql, replace_params_no_marker_left sql, ?_⟩
  intro a b ha hsql
  rw [hsql]
  exact replace_params_split a b ha

/-- Witness for C1 at a concrete input. -/
theorem c1_translation_witness :
    replace_params ('a' :: '%' :: 's' :: 'b' :: []) = 'a' :: '?' :: 'b' :: [] := by
  have h := (c1_translation ('a' :: '%' :: 's' :: 'b' :: []) (.ok .pynone)).2.2.2.2
    ['a'] ['b'] (by decide) rfl
  exact h.trans (by decide)

/-- C2: for every driver error raised during execute or executemany, if
the error is the driver IntegrityError type or its first argument (the
numeric error code) is in the known integrity-error set, the wrapper
raises IntegrityError with the same argument tuple as the original
error; any other driver error is re-raised as a generic DatabaseError
with the same argument tuple; a driver error is never swallowed (both
wrappers always surface an error). -/
theorem c2_error_classification (sql : List Char) (e : DriverError) :
    ((e.isIntegrity = true ∨ e.arg0 = .int 301) →
      (cursorExecute sql (.error e)).result = .error (.integrityError e.args)
    ∧ (cursorExecutemany sql (.error e)).result = .error (.integrityError e.args))
  ∧ (e.isIntegrity = false → e.arg0 ≠ .int 301 →
      (cursorExecute sql (.error e)).result = .error (.databaseError e.args)
    ∧ (cursorExecutemany sql (.error e)).result = .error (.databaseError e.args))
  ∧ (∃ w1, (cursorExecute sql (.error e)).result = .error w1)
  ∧ (∃ w2, (cursorExecutemany sql (.error e)).result = .error w2) := by
  have hmain : ∀ v : PyVal, (code_matches v = true) ↔ v = .int 301 := by
    intro v
    cases v with
    | pynone => simp [code_matches]
    | int n =>
      simp [code_matches, codes_for_integrityerror, List.contains, PyVal.int.injEq]
    | str s => simp [code_matches]
  refine ⟨?_, ?_, ?_, ?_⟩
  · rintro (hi | hc)
    · constructor <;>
        simp [cursorExecute, cursorExecutemany, classify_driver_error, hi]
    · constructor <;>
      · by_cases hi : e.isIntegrity <;>
          simp [cursorExecute, cursorExecutemany, classify_driver_error, hi,
            (hmain e.arg0).mpr hc]
  · intro hi hc
    have hcm : code_matches e.arg0 = false := by
      cases hcode : code_matches e.arg0
      · rfl
      · exact absurd ((hmain e.arg0).mp hcode) hc
    constructor <;>
      simp [cursorExecute, cursorExecutemany, classify_driver_error, hi, hcm]
  · exact ⟨classify_driver_error e, rfl⟩
  · exact ⟨classify_driver_error e, rfl⟩

/-- Witness for C2 at concrete inputs: a non-integrity driver error with
code 301 is surfaced as IntegrityError, one with code 5 as
DatabaseError, both with the original arguments. -/
theorem c2_error_classification_witness :
    (cursorExecute [] (.error ⟨false, .int 301, [.str ['d']]⟩)).result =
      .error (.integrityError [.int 301, .str ['d']])
  ∧ (cursorExecute [] (.error ⟨false, .int 5, []⟩)).result =
      .error (.databaseError [.int 5]) := by
  constructor
  · exact ((c2_error_classification [] ⟨false, .int 301, [.str ['d']]⟩).1 (Or.inr rfl)).1
  · exact ((c2_error_classification [] ⟨false, .int 5, []⟩).2.1 rfl (by decide)).1

/-- C9 counterexample: when the driver execute returns the row count 5,
the wrapper execute returns None rather than 5, because the Python body
of CursorWrapper.execute has no return statement. -/
theorem c9_return_value_counterexample :
    (cursorExecute [] (.ok (.int 5))).result = .ok .pynone
  ∧ (cursorExecute [] (.ok (.int 5))).result ≠ .ok (.int 5) := by
  constructor
  · rfl
  · decide

/-- C9 amended: when the delegated driver execution succeeds, the
wrapper execute (and executemany) discards the driver return value and
returns None to the caller. -/
theorem c9_execute_returns_none (sql : List Char) (v : PyVal) :
    (cursorExecute sql (.ok v)).result = .ok .pynone
  ∧ (cursorExecutemany sql (.ok v)).result = .ok .pynone :=
  ⟨rfl, rfl⟩

/-- C6 counterexample: with autocommit off and a clean connection, a
call to the plain cursor wrapper execute leaves the dirty flag false —
CursorWrapper.execute never calls set_dirty, and DatabaseWrapper.set_dirty
is pass — so the dirty flag is not set as the claim states. -/
theorem c6_dirty_flag_counterexample :
    (cursorExecuteSt { autocommit := false, dirty := false } []
      (.ok .pynone)).1.dirty = false
  ∧ (debugExecute (fun s _ => s) { autocommit := false, dirty := false } []
      [] [] 0 0 (.ok .pynone)).db.dirty = false := by
  constructor
  · rfl
  · rfl

/-- C6 amended: the plain cursor wrapper execute does not touch the
owning connection state at all; the debug wrapper calls
CursorWrapper.set_dirty before delegating, but DatabaseWrapper.set_dirty
is a no-op, so on every path the dirty flag is left unchanged. -/
theorem c6_dirty_flag_unchanged (db : WrapperDb) (sql : List Char)
    (d : Except DriverError PyVal) (leq : List Char → List PyParam → List Char)
    (qs : List LogEntry) (params : List PyParam) (start stop : Int) :
    (cursorExecuteSt db sql d).1 = db
  ∧ cursor_set_dirty db = db
  ∧ (debugExecute leq db qs sql params start stop d).db = db
  ∧ (debugExecutemany db qs sql (.sized []) start stop d).db = db := by
  have hsd : cursor_set_dirty db = db := by
    unfold cursor_set_dirty databaseWrapper_set_dirty
    split <;> rfl
  exact ⟨rfl, hsd, by simp [debugExecute, hsd], by simp [debugExecutemany, hsd]⟩

/-- C3 counterexample: with a valid schema name but an absent HOST, the
connection pipeline raises KeyError (from the conn_params lookup in
get_new_connection), not the configuration error the claim states —
though it does fail before any network call. -/
theorem c3_missing_host_counterexample :
    connect_pipeline ⟨"S", "u", "p", "", "30015"⟩ =
      .raisedBeforeNetwork (.keyError "host")
  ∧ PyErr.keyError "host" ≠ .improperlyConfigured := by
  constructor
  · rfl
  · decide

/-- C3 amended: a missing (falsy) required parameter always makes the
pipeline fail before any network call and no connection object is
created, but only a missing schema name raises ImproperlyConfigured
(the ConfigurationError of the spec); a missing host, port, user or
password is silently dropped from conn_params by get_connection_params
and surfaces as a KeyError when get_new_connection reads it, in the
evaluation order host, port, user, password. -/
theorem c3_missing_param_before_network (s : SettingsDict) :
    (s.NAME = "" → connect_pipeline s = .raisedBeforeNetwork .improperlyConfigured)
  ∧ (s.NAME ≠ "" → s.HOST = "" →
      connect_pipeline s = .raisedBeforeNetwork (.keyError "host"))
  ∧ (s.NAME ≠ "" → s.HOST ≠ "" → s.PORT = "" →
      connect_pipeline s = .raisedBeforeNetwork (.keyError "port"))
  ∧ (s.NAME ≠ "" → s.HOST ≠ "" → s.PORT ≠ "" → s.USER = "" →
      connect_pipeline s = .raisedBeforeNetwork (.keyError "user"))
  ∧ (s.NAME ≠ "" → s.HOST ≠ "" → s.PORT ≠ "" → s.USER ≠ "" → s.PASSWORD = "" →
      connect_pipeline s = .raisedBeforeNetwork (.keyError "password")) := by
  refine ⟨?_, ?_, ?_, ?_, ?_⟩
  · intro hn
    simp [connect_pipeline, get_connection_params, hn]
  · intro hn hh
    simp [connect_pipeline, get_connection_params, get_new_connection, hn, hh]
  · intro hn hh hp
    simp [connect_pipeline, get_connection_params, get_new_connection, hn, hh, hp]
  · intro hn hh hp hu
    simp [connect_pipeline, get_connection_params, get_new_connection, hn, hh, hp, hu]
  · intro hn hh hp hu hw
    simp [connect_pipeline, get_connection_params, get_new_connection, hn, hh, hp, hu, hw]

/-- Witness for C3 (amended) at concrete inputs: an absent NAME and an
absent PORT. -/
theorem c3_missing_param_before_network_witness :
    connect_pipeline ⟨"", "u", "p", "h", "1"⟩ =
      .raisedBeforeNetwork .improperlyConfigured
  ∧ connect_pipeline ⟨"S", "u", "p", "h", ""⟩ =
      .raisedBeforeNetwork (.keyError "port") := by
  constructor
  · exact (c3_missing_param_before_network ⟨"", "u", "p", "h", "1"⟩).1 rfl
  · exact (c3_missing_param_before_network ⟨"S", "u", "p", "h", ""⟩).2.2.1
      (by decide) (by decide) rfl

/-- C4: leaving a managed-transaction block (a nonempty transaction
stack) with the dirty flag set performs one rollback on the connection
and raises TransactionManagementError; leaving with the flag clear
raises nothing and performs no rollback; on both paths the finally
block restores autocommit to true before control returns. -/
theorem c4_leave_transaction_management (st : TxState)
    (h : 0 < st.transaction_state) :
    (leave_transaction_management st).1.autocommit = true
  ∧ (st.dirty = true →
      (leave_transaction_management st).2 = some .pendingWrites
    ∧ (leave_transaction_management st).1.rollbacks = st.rollbacks + 1)
  ∧ (st.dirty = false →
      (leave_transaction_management st).2 = none
    ∧ (leave_transaction_management st).1.rollbacks = st.rollbacks) := by
  have hz : ¬ st.transaction_state = 0 := Nat.pos_iff_ne_zero.mp h
  refine ⟨?_, ?_, ?_⟩
  · unfold leave_transaction_management
    rw [if_neg hz]
    dsimp only
    split <;> rfl
  · intro hd
    unfold leave_transaction_management
    rw [if_neg hz]
    simp [hd]
  · intro hd
    unfold leave_transaction_management
    rw [if_neg hz]
    simp [hd]

/-- Witness for C4 at concrete states: one dirty, one clean, both with
one open transaction level. -/
theorem c4_leave_transaction_management_witness :
    ((leave_transaction_management ⟨1, true, false, 0⟩).2 = some .pendingWrites
    ∧ (leave_transaction_management ⟨1, true, false, 0⟩).1.rollbacks = 0 + 1)
  ∧ ((leave_transaction_management ⟨1, false, false, 0⟩).2 = none
    ∧ (leave_transaction_management ⟨1, false, false, 0⟩).1.rollbacks = 0)
  ∧ (leave_transaction_management ⟨1, true, false, 0⟩).1.autocommit = true := by
  refine ⟨?_, ?_, ?_⟩
  · exact (c4_leave_transaction_management ⟨1, true, false, 0⟩ (by decide)).2.1 rfl
  · exact (c4_leave_transaction_management ⟨1, false, false, 0⟩ (by decide)).2.2 rfl
  · exact (c4_leave_transaction_management ⟨1, true, false, 0⟩ (by decide)).1

/-- C7 counterexample: after close on a live connection, is_usable does
not return false — it raises AttributeError, because close set the
connection attribute to None and is_usable reads closed off None. -/
theorem c7_usable_after_close_counterexample :
    is_usable (db_close ⟨some ⟨false⟩, 0⟩) = .attributeError
  ∧ UsableResult.attributeError ≠ .ok false := by
  constructor
  · rfl
  · decide

/-- C7 amended: closing a live connection clears the connection
attribute and closes the physical resource exactly once; a second close
returns without error and without a further physical close; but
is_usable on the closed wrapper raises AttributeError rather than
returning false. -/
theorem c7_close_idempotent (w : DbHandle) (c : PhysConn)
    (h : w.connection = some c) :
    (db_close w).connection = none
  ∧ (db_close w).physCloseCalls = w.physCloseCalls + 1
  ∧ db_close (db_close w) = db_close w
  ∧ is_usable (db_close w) = .attributeError := by
  refine ⟨?_, ?_, ?_, ?_⟩ <;> simp [db_close, is_usable, h]

/-- Witness for C7 (amended) at a concrete handle. -/
theorem c7_close_idempotent_witness :
    (db_close ⟨some ⟨false⟩, 3⟩).connection = none
  ∧ (db_close ⟨some ⟨false⟩, 3⟩).physCloseCalls = 3 + 1
  ∧ db_close (db_close ⟨some ⟨false⟩, 3⟩) = db_close ⟨some ⟨false⟩, 3⟩ :=
  ⟨(c7_close_idempotent ⟨some ⟨false⟩, 3⟩ ⟨false⟩ rfl).1,
   (c7_close_idempotent ⟨some ⟨false⟩, 3⟩ ⟨false⟩ rfl).2.1,
   (c7_close_idempotent ⟨some ⟨false⟩, 3⟩ ⟨false⟩ rfl).2.2.1⟩

/-- Helper for C8: draining an iterator with fuel equal to its remaining
length yields exactly the remaining rows, in order, and leaves the
iterator exhausted. -/
theorem drainFuel_complete {α : Type} (l : List α) :
    drainFuel l.length ⟨l⟩ = (l, (⟨[]⟩ : PyIterator α)) := by
  induction l with
  | nil => rfl
  | cons a r ih =>
    simp only [List.length_cons, drainFuel, pyNext, ih]

/-- Helper for C8: an exhausted iterator yields no rows under any amount
of further fuel. -/
theorem drainFuel_exhausted {α : Type} (n : Nat) :
    drainFuel n (⟨[]⟩ : PyIterator α) = ([], ⟨[]⟩) := by
  cases n with
  | zero => rfl
  | succ m => rfl

/-- C8: iterating a cursor whose driver cursor supports native iteration
and iterating one that falls back to fetchall both yield every produced
row exactly once, in driver-returned order with no duplicates (the
yielded list is exactly the row list, so row multiplicities agree), and
draining the returned iterator again after exhaustion yields no further
rows. -/
theorem c8_cursor_iteration {α : Type} [DecidableEq α] (c : DriverCursor α) (n : Nat) :
    (drainFuel (cursorIter c).remaining.length (cursorIter c)).1 = c.rows
  ∧ (∀ r : α,
      ((drainFuel (cursorIter c).remaining.length (cursorIter c)).1.count r =
        c.rows.count r))
  ∧ (drainFuel n
      (drainFuel (cursorIter c).remaining.length (cursorIter c)).2).1 = [] := by
  have hiter : cursorIter c = ⟨c.rows⟩ := by
    unfold cursorIter fetchall
    split <;> rfl
  rw [hiter]
  simp [drainFuel_complete, drainFuel_exhausted]

/-- C5: every call to the debug cursor wrapper execute appends exactly
one query-log entry, also when the delegated execute raises (the append
sits in the finally block); the appended entry has the rendered
post-substitution text produced by the last_executed_query collaborator
on the sanitized parameters as its SQL field, and under a monotone wall
clock (stop at least start) its duration is non-negative. -/
theorem c5_debug_execute_logs (leq : List Char → List PyParam → List Char)
    (db : WrapperDb) (qs : List LogEntry) (sql : List Char)
    (params : List PyParam) (start stop : Int)
    (d : Except DriverError PyVal) (h : start ≤ stop) :
    (debugExecute leq db qs sql params start stop d).queries =
      qs ++ [⟨leq sql (params.map sanitize_blob), stop - start⟩]
  ∧ (debugExecute leq db qs sql params start stop d).queries.length = qs.length + 1
  ∧ 0 ≤ (stop - start)
  ∧ (∀ e, d = .error e →
      (debugExecute leq db qs sql params start stop d).queries.length =
        qs.length + 1) := by
  refine ⟨rfl, by simp [debugExecute], by omega, fun e he => by simp [debugExecute]⟩

/-- Witness for C5 at concrete inputs, with a raising delegate. -/
theorem c5_debug_execute_logs_witness :
    (debugExecute (fun s _ => s) ⟨true, false⟩ [] ['q'] [] 2 7
      (.error ⟨false, .int 5, []⟩)).queries = [] ++ [⟨['q'], 7 - 2⟩]
  ∧ (0 : Int) ≤ 7 - 2 :=
  ⟨(c5_debug_execute_logs (fun s _ => s) ⟨true, false⟩ [] ['q'] [] 2 7
      (.error ⟨false, .int 5, []⟩) (by decide)).1,
   (c5_debug_execute_logs (fun s _ => s) ⟨true, false⟩ [] ['q'] [] 2 7
      (.error ⟨false, .int 5, []⟩) (by decide)).2.2.1⟩

/-- C10: every call to the debug cursor wrapper executemany appends
exactly one query-log entry, also when the delegated call raises; the
SQL field of the entry is the rendered count of parameter sets, the
separator text, and the original untranslated statement; when the
parameter-set sequence has no length the recorded count is the literal
question-mark character; the driver itself still receives the
translated statement. -/
theorem c10_debug_executemany_logs (db : WrapperDb) (qs : List LogEntry)
    (sql : List Char) (pl : ParamSets) (start stop : Int)
    (d : Except DriverError PyVal) :
    (debugExecutemany db qs sql pl start stop d).queries =
      qs ++ [⟨timesChars pl ++ " times: ".data ++ sql, stop - start⟩]
  ∧ (debugExecutemany db qs sql pl start stop d).queries.length = qs.length + 1
  ∧ (∀ l, pl = .sized l → timesChars pl = (Nat.repr l.length).data)
  ∧ (pl = .unsized → timesChars pl = ['?'])
  ∧ (debugExecutemany db qs sql pl start stop d).sentSql = replace_params sql := by
  refine ⟨rfl, by simp [debugExecutemany], ?_, ?_, rfl⟩
  · intro l hl
    rw [hl]
    rfl
  · intro hl
    rw [hl]
    rfl

/-- Witness for C10 at concrete inputs: a two-element sized parameter
list and an unsized iterator, the latter with a raising delegate. -/
theorem c10_debug_executemany_logs_witness :
    (debugExecutemany ⟨true, false⟩ [] ['%', 's'] (.sized [[], []]) 0 4
      (.ok .pynone)).queries =
      [] ++ [⟨(Nat.repr 2).data ++ " times: ".data ++ ['%', 's'], 4 - 0⟩]
  ∧ (debugExecutemany ⟨true, false⟩ [] ['q'] .unsized 0 4
      (.error ⟨true, .int 301, []⟩)).queries =
      [] ++ [⟨['?'] ++ " times: ".data ++ ['q'], 4 - 0⟩] := by
  constructor
  · have h := (c10_debug_executemany_logs ⟨true, false⟩ [] ['%', 's']
      (.sized [[], []]) 0 4 (.ok .pynone)).1
    rw [h]
    rfl
  · have h := (c10_debug_executemany_logs ⟨true, false⟩ [] ['q']
      .unsized 0 4 (.error ⟨true, .int 301, []⟩)).1
    rw [h]
    rfl

end DjangoHana
